import Mathlib

/-!
# Shallow embedding of `run_backup.py`

This file embeds the behaviour of the rsync-wrapper script `run_backup.py`
(single-file Python program) into Lean 4 and proves properties of the
embedding.  Python exceptions are modelled with `Except`, the mutable
signal-handler table with an explicit function from signals to handler
identifiers, and the child process with an abstract behaviour record
(whether it outlives the configured timeout, and its eventual exit code).
Filesystem side effects (creating the per-run log directory, opening the
three log files) are not part of any modelled property and are noted where
they are elided.
-/

namespace RunBackup

/-- Python exception classes that the script can raise during context
construction: `ConfigException` (lines 48-49), the builtin `KeyError`
raised by `config[section][key]` on a missing key, and the builtin
`ValueError` raised by `int(...)` on a malformed literal. -/
inductive PyErr where
  | configException (msg : String)
  | keyError (key : String)
  | valueError (msg : String)
deriving DecidableEq, Repr

/-- Whether an error is the script's own `ConfigException`. -/
def isConfigException : PyErr → Bool
  | .configException _ => true
  | _ => false

/-! ## The run supervisor (`_wait_with_timeout`, lines 114-138, and
`backup`, lines 141-210) -/

/-- Abstract behaviour of the spawned rsync child: whether it is still
running when the configured timeout elapses, and the exit code it
eventually reports through `process.returncode`. -/
structure ChildBehavior where
  runsPastTimeout : Bool
  exitCode : Int
deriving DecidableEq, Repr

/-- How the supervisor waited for the child: `process.wait()` with no
argument (unbounded) or `process.wait(timeout_secs)` (bounded). -/
inductive WaitMode where
  | unbounded
  | bounded (secs : Int)
deriving DecidableEq, Repr

/-- Embedding of `_wait_with_timeout` (lines 114-138): returns the local
`status` string and whether SIGINT was sent to the child.  When
`process.wait(timeout_secs)` raises `TimeoutExpired`, the function sets
`status = 'time expired'`, sends `os.kill(pid, SIGINT)` and then waits
without bound for the child; otherwise `status` stays `''`. -/
def wait_with_timeout (_timeout_secs : Int) (child : ChildBehavior) : String × Bool :=
  if child.runsPastTimeout then
    ("time expired", true)
  else
    ("", false)

/-- Observable result of one `backup` run (lines 187-210): the final
status string, whether a timeout interrupt was sent, and which wait the
supervisor used. -/
structure BackupTrace where
  status : String
  interruptSent : Bool
  waitMode : WaitMode
deriving DecidableEq, Repr

/-- Embedding of the wait-and-classify part of `backup` (lines 187-210).
`status` starts as `''`; with no timeout the code calls `process.wait()`,
otherwise `_wait_with_timeout`.  Afterwards: `returncode == 0` sets
`status = "success"`, a nonzero code runs `status = status or "failure"`
(Python `or`: the empty string is falsy, a non-empty `status` is kept).
Writing the return code to `log_ret_fd` and closing the three log handles
are filesystem effects not modelled here. -/
def backupRun (timeout_secs : Option Int) (child : ChildBehavior) : BackupTrace :=
  let waited :=
    match timeout_secs with
    | none => (("", false), WaitMode.unbounded)
    | some t => (wait_with_timeout t child, WaitMode.bounded t)
  let status := waited.1.1
  let returncode := child.exitCode
  let final :=
    if returncode = 0 then "success"
    else if status = "" then "failure" else status
  { status := final, interruptSent := waited.1.2, waitMode := waited.2 }

/-! ## Signal interception (`PROPAGATED_SIGNALS`, lines 36-42,
`intercept_signals`, lines 90-111, and the nested `sig_handler`,
lines 171-185) -/

/-- The signals relevant to the script.  `other` stands for any signal
outside the propagated set, so that we can observe that the install and
restore loops only touch the propagated ones. -/
inductive Sig where
  | sigint
  | sighup
  | sigquit
  | sigterm
  | other
deriving DecidableEq, Repr

/-- `PROPAGATED_SIGNALS` (lines 36-42): SIGINT, SIGHUP, SIGQUIT, SIGTERM.
SIGKILL is deliberately absent (it cannot be handled). -/
def PROPAGATED_SIGNALS : List Sig :=
  [Sig.sigint, Sig.sighup, Sig.sigquit, Sig.sigterm]

/-- The process signal-handler table: each signal maps to a handler,
abstracted as a numeric identifier (`signal.getsignal` reads it,
`signal.signal` writes it). -/
def SigTable : Type := Sig → Nat

/-- `signal.signal(s, h)`: update the handler table at one signal. -/
def setSignal (table : SigTable) (s : Sig) (h : Nat) : SigTable :=
  fun x => if x = s then h else table x

/-- The first loop of `intercept_signals` (lines 100-105): for each
propagated signal, record the current handler in `orig_handlers` and
install `sig_handler`.  Returns the updated table and the recorded
`(signal, original handler)` pairs. -/
def installLoop (table : SigTable) (handler : Nat) : SigTable × List (Sig × Nat) :=
  PROPAGATED_SIGNALS.foldl
    (fun acc s => (setSignal acc.1 s handler, acc.2 ++ [(s, acc.1 s)]))
    (table, [])

/-- The second loop of `intercept_signals` (lines 109-111): restore each
recorded original handler. -/
def restoreLoop (table : SigTable) (origs : List (Sig × Nat)) : SigTable :=
  origs.foldl (fun t p => setSignal t p.1 p.2) table

/-- Embedding of the `@contextmanager` generator `intercept_signals`
(lines 90-111).  The body of the `with` block is abstracted as an
`Except`-valued outcome: `.ok` when the wait completed normally, `.error`
when an exception was raised inside the block.  The generator has a bare
`yield` with no `try/finally`: on a body exception, `__exit__` throws the
exception into the generator at the `yield`, the generator re-raises it,
and the restore loop after the `yield` never runs — so the table is left
with the temporary handlers installed. -/
def intercept_signals (table : SigTable) (handler : Nat)
    (body : Except Unit Unit) : Except Unit Unit × SigTable :=
  let installed := installLoop table handler
  match body with
  | .ok _ => (Except.ok (), restoreLoop installed.1 installed.2)
  | .error e => (Except.error e, installed.1)

/-- What one invocation of the nested `sig_handler` (lines 171-185) did:
which `(pid, signum)` pairs were passed to `os.kill`, and whether the
`except BaseException` branch logged a relay error. -/
structure HandlerTrace where
  killCalls : List (Nat × Nat)
  errorLogged : Bool
deriving DecidableEq, Repr

/-- Whether an `os.kill` attempt raised. -/
def exceptFails : Except Unit Unit → Bool
  | .ok _ => false
  | .error _ => true

/-- Embedding of `sig_handler` (lines 171-185).  `kill pid signum` models
`os.kill(process.pid, signum)`, which may raise (e.g. the child is
already gone).  The handler logs, tries the relay, and on any
`BaseException` logs the error and returns normally — the `except` block
re-raises nothing. -/
def sig_handler (kill : Nat → Nat → Except Unit Unit)
    (signum pid : Nat) : Except Unit HandlerTrace :=
  match kill pid signum with
  | .ok _ => Except.ok { killCalls := [(pid, signum)], errorLogged := false }
  | .error _ => Except.ok { killCalls := [(pid, signum)], errorLogged := true }

/-! ## Config loading (`_config_file`, lines 213-234, and `context`,
lines 237-324) -/

/-- Python `path.endswith('/')`: the last character is the separator. -/
def endsWithSlash (p : String) : Bool :=
  p.toList.getLast? = some '/'

/-- The per-path normalization inside `context` (lines 289-293):
`path if path.endswith('/') else path + '/'`. -/
def normSlash (p : String) : String :=
  if endsWithSlash p then p else p ++ "/"

/-- `os.path.join(d, f)` for the shapes the script uses (no absolute
second component). -/
def joinPath (d f : String) : String :=
  if d = "" then f
  else if endsWithSlash d then d ++ f
  else d ++ "/" ++ f

/-- The config file base name (line 217). -/
def config_fname : String := "run_backup.rc"

/-- The candidate-scanning loop of `_config_file` (lines 221-225): for
each XDG config directory, append the joined candidate and stop at the
first existing one.  Returns the found path (if any) and the accumulated
candidate list. -/
def findInDirs (dirs : List String) (ex : String → Bool)
    (acc : List String) : Option String × List String :=
  match dirs with
  | [] => (none, acc)
  | d :: rest =>
    let candidate := joinPath d config_fname
    let acc2 := acc ++ [candidate]
    if ex candidate then (some candidate, acc2)
    else findInDirs rest ex acc2

/-- Embedding of `_config_file` (lines 213-234).  `xdgDirs = none` models
`import xdg.BaseDirectory` raising `ImportError` (the loop is skipped);
`ex` models `os.path.exists`; `home` is `os.environ['HOME']`.  Note that
the `HOME` candidate is appended to the list before the exception is
raised, so the error names it too. -/
def config_file (xdgDirs : Option (List String)) (home : String)
    (ex : String → Bool) : Except PyErr String :=
  let scanned :=
    match xdgDirs with
    | some dirs => findInDirs dirs ex []
    | none => (none, [])
  match scanned.1 with
  | some c => Except.ok c
  | none =>
    let candidate := joinPath home config_fname
    if ex candidate then Except.ok candidate
    else
      Except.error (PyErr.configException
        ("No config file. Places examined: "
          ++ String.intercalate ", " (scanned.2 ++ [candidate])))

/-- Every path `_config_file` examines, in the order it reports them. -/
def candidatesOf (xdgDirs : Option (List String)) (home : String) : List String :=
  (xdgDirs.getD []).map (fun d => joinPath d config_fname)
    ++ [joinPath home config_fname]

/-- A parsed config section: key to value (`configparser` section). -/
def CfgSection : Type := String → Option String

/-- A parsed config file: section name to section. -/
def Config : Type := String → Option CfgSection

/-- `config[section_name]` with the missing-section check of lines
245-248. -/
def getSection (config : Config) (section_name config_fname2 : String) :
    Except PyErr CfgSection :=
  match config section_name with
  | some sec => Except.ok sec
  | none =>
    Except.error (PyErr.configException
      ("Need a '" ++ section_name ++ "' section in " ++ config_fname2))

/-- `config[section][key]` (lines 249-252): raises `KeyError` on a
missing key — it is NOT wrapped into a `ConfigException`. -/
def getItem (sec : CfgSection) (key : String) : Except PyErr String :=
  match sec key with
  | some v => Except.ok v
  | none => Except.error (PyErr.keyError key)

/-- Python falsiness of an optional string (`not mailfrom` is true for
both `None` and `''`). -/
def falsyOpt : Option String → Bool
  | none => true
  | some s => s = ""

/-- A decimal digit's value. -/
def digitVal (c : Char) : Option Nat :=
  if '0' ≤ c ∧ c ≤ '9' then some (c.toNat - '0'.toNat) else none

/-- Accumulate a digit string's value; fails on the first non-digit. -/
def digitsValAux : List Char → Nat → Option Nat
  | [], acc => some acc
  | c :: rest, acc =>
    match digitVal c with
    | some d => digitsValAux rest (acc * 10 + d)
    | none => none

/-- Value of a non-empty all-digit character list. -/
def digitsVal : List Char → Option Nat
  | [] => none
  | cs => digitsValAux cs 0

/-- Python whitespace stripped by `int(...)`. -/
def isSpaceChar (c : Char) : Bool :=
  c == ' ' || c == '\t' || c == '\n' || c == '\r'

/-- Strip surrounding whitespace from a character list. -/
def stripSpaces (cs : List Char) : List Char :=
  ((cs.dropWhile isSpaceChar).reverse.dropWhile isSpaceChar).reverse

/-- Sign-and-digits core of Python `int(...)`. -/
def pyIntCore : List Char → Option Int
  | [] => none
  | '-' :: rest => (digitsVal rest).map (fun n => -(n : Int))
  | '+' :: rest => (digitsVal rest).map (fun n => (n : Int))
  | cs => (digitsVal cs).map (fun n => (n : Int))

/-- Python `int(s)` on the forms relevant here: optional surrounding
whitespace, optional sign, decimal digits.  (Digit-grouping underscores
are not modelled.)  `none` models a raised `ValueError`. -/
def pyInt (s : String) : Option Int :=
  pyIntCore (stripSpaces s.toList)

/-- Lines 254-258: `config[section].get('timeout_secs', '')`; a truthy
(non-empty) string goes through `int(...)`, otherwise the timeout is
`None`. -/
def parseTimeout (raw : String) : Except PyErr (Option Int) :=
  if raw = "" then Except.ok none
  else
    match pyInt raw with
    | some n => Except.ok (some n)
    | none =>
      Except.error (PyErr.valueError
        ("invalid literal for int with base 10: " ++ raw))

/-- Mail configuration (`MailConfig` namedtuple, lines 78-87). -/
structure MailConfig where
  mailto : String
  mailfrom : String
  smtp : String
  thread_ids : List String
  taskdesc : String
deriving DecidableEq, Repr

/-- Lines 260-287: `mailto` defaults to `''`; when truthy, the `mail`
section must exist (else `ConfigException`), `mailfrom` comes from the
run section or the `mail` section (else `ConfigException`), `smtp`
defaults to `'smtp'`, `thread_ids` starts empty, and the task description
is built from the raw (pre-normalization) host/src/dst values. -/
def parseMail (config : Config) (section_name : String) (sec : CfgSection)
    (host src_dir dst_dir : String) : Except PyErr (Option MailConfig) :=
  let mailto := (sec "mailto").getD ""
  if mailto = "" then Except.ok none
  else
    match config "mail" with
    | none =>
      Except.error (PyErr.configException
        ("mailto not null in section " ++ section_name
          ++ ", but no section 'mail'"))
    | some mailsec =>
      let mf1 := sec "mailfrom"
      let mf2 := if falsyOpt mf1 then mailsec "mailfrom" else mf1
      if falsyOpt mf2 then
        Except.error (PyErr.configException
          ("Please specify mailfrom either in '" ++ section_name
            ++ "' or in 'mail'"))
      else
        Except.ok (some
          { mailto := mailto
            mailfrom := mf2.getD ""
            smtp := (mailsec "smtp").getD "smtp"
            thread_ids := []
            taskdesc := "backup of " ++ host ++ ":" ++ src_dir
              ++ " on " ++ dst_dir })

/-- The run context (`Context` namedtuple, lines 61-75).  The `logfile`
path and the three opened log file descriptors depend on the wall clock
and the filesystem (lines 295-311: `makedirs` + `open`) and are elided;
`logbase` is kept to record that the key is required. -/
structure Ctx where
  ourname : String
  host : String
  src_dir : String
  dst_dir : String
  timeout_secs : Option Int
  logbase : String
  mail : Option MailConfig
deriving DecidableEq, Repr

/-- The pure core of `context` (lines 245-324) once the config file has
been read: section lookup, the four required keys (`KeyError` if absent),
timeout parsing, mail-config validation, then trailing-slash
normalization of the two directories. -/
def context_core (ourname section_name : String) (config : Config)
    (config_fname2 : String) : Except PyErr Ctx :=
  (getSection config section_name config_fname2).bind fun sec =>
  (getItem sec "host").bind fun host =>
  (getItem sec "src_dir").bind fun src_dir =>
  (getItem sec "dst_dir").bind fun dst_dir =>
  (getItem sec "logbase").bind fun logbase =>
  (parseTimeout ((sec "timeout_secs").getD "")).bind fun timeout_secs =>
  (parseMail config section_name sec host src_dir dst_dir).bind fun mail =>
  Except.ok
    { ourname := ourname
      host := host
      src_dir := normSlash src_dir
      dst_dir := normSlash dst_dir
      timeout_secs := timeout_secs
      logbase := logbase
      mail := mail }

/-- Embedding of `context` (lines 237-324): locate the config file, read
it (`readConfig` models `configparser` parsing of the located file), and
build the run context. -/
def context (xdgDirs : Option (List String)) (home : String)
    (ex : String → Bool) (readConfig : String → Config)
    (ourname section_name : String) : Except PyErr Ctx :=
  match config_file xdgDirs home ex with
  | .error e => Except.error e
  | .ok f => context_core ourname section_name (readConfig f) f

/-- The argument list built by `backup` (lines 145-151): a fixed list,
passed to `subprocess.Popen` as a vector (no shell involved). -/
def rsyncCommand (c : Ctx) : List String :=
  ["rsync", "-avz", "--delete", c.host ++ ":" ++ c.src_dir, c.dst_dir]

/-! ## Mail composition (`_makemail`, lines 341-360) and the top level
(lines 420-432) -/

/-- The headers `_makemail` sets on the outgoing message.  The MIME body
(preamble, attachments) is carried elsewhere and does not affect the
threading claims. -/
structure MailMsg where
  subject : String
  sender : String
  recipient : String
  messageId : String
  inReplyTo : Option String
deriving DecidableEq, Repr

/-- Embedding of `_makemail` (lines 341-360).  `msgid` stands for the
fresh identifier returned by `make_msgid(context.ourname)`.  The code
sets `Message-ID`, sets `In-Reply-To` to `thread_ids[-1]` only when the
list is non-empty, and then appends the fresh id to `thread_ids` (the
list is mutated in place; here the updated `MailConfig` is returned). -/
def makemail (mail : MailConfig) (status msgid : String) :
    MailMsg × MailConfig :=
  ({ subject := "[" ++ status ++ "] " ++ mail.taskdesc
     sender := mail.mailfrom
     recipient := mail.mailto
     messageId := msgid
     inReplyTo := mail.thread_ids.getLast? },
   { mail with thread_ids := mail.thread_ids ++ [msgid] })

/-- Observable outcome of the `__main__` block (lines 420-432): the final
`status` value, whether the `except BaseException` branch logged the
error, and whether the `finally` block called `log2mail`. -/
structure MainTrace where
  status : String
  exceptionLogged : Bool
  mailAttempted : Bool
deriving DecidableEq, Repr

/-- Embedding of the `try/except BaseException/finally` block of
`__main__` (lines 425-432).  The result of `backup(context, logger)` is
abstracted as an `Except`: on any raised exception the status becomes the
generic `"problem occured"` (sic) and the exception is logged; the
`finally` block attempts the mail notification whenever `context.mail`
is configured. -/
def mainRun (backupResult : Except PyErr String) (mailConfigured : Bool) :
    MainTrace :=
  match backupResult with
  | .ok s => { status := s, exceptionLogged := false, mailAttempted := mailConfigured }
  | .error _ =>
    { status := "problem occured", exceptionLogged := true,
      mailAttempted := mailConfigured }

end RunBackup

namespace RunBackup

/-! ## Helper lemmas -/

/-- If no XDG candidate exists, the scanning loop returns `none` and has
appended every candidate to the accumulator. -/
lemma findInDirs_all_missing (dirs : List String) (ex : String → Bool)
    (h : ∀ d ∈ dirs, ex (joinPath d config_fname) = false) :
    ∀ acc, findInDirs dirs ex acc =
      (none, acc ++ dirs.map (fun d => joinPath d config_fname)) := by
  induction dirs with
  | nil => intro acc; simp [findInDirs]
  | cons d rest ih =>
    intro acc
    have hd : ex (joinPath d config_fname) = false := h d (by simp)
    rw [findInDirs]
    simp only [hd, if_neg Bool.false_ne_true]
    rw [ih (fun x hx => h x (by simp [hx]))]
    simp

/-- When every examined candidate is missing, `_config_file` raises the
`ConfigException` listing all of them. -/
lemma config_file_all_missing (xdg : Option (List String)) (home : String)
    (ex : String → Bool)
    (h : ∀ c ∈ candidatesOf xdg home, ex c = false) :
    config_file xdg home ex =
      Except.error (PyErr.configException
        ("No config file. Places examined: "
          ++ String.intercalate ", " (candidatesOf xdg home))) := by
  have hhome : ex (joinPath home config_fname) = false := by
    refine h _ ?_
    simp [candidatesOf]
  cases xdg with
  | none =>
    simp [config_file, candidatesOf, hhome]
  | some dirs =>
    have hdirs : ∀ d ∈ dirs, ex (joinPath d config_fname) = false := by
      intro d hd
      refine h _ ?_
      simp only [candidatesOf, Option.getD_some, List.mem_append,
        List.mem_map, List.mem_singleton]
      exact Or.inl ⟨d, hd, rfl⟩
    simp [config_file, findInDirs_all_missing dirs ex hdirs [], hhome,
      candidatesOf]

/-- Successful evaluation of `context` when the file is found, the
section and the four required keys are present, the timeout key is empty
or absent, and mail is not configured. -/
lemma context_ok_eval (xdg : Option (List String)) (home : String)
    (ex : String → Bool) (rc : String → Config)
    (oname sn f : String) (sec : CfgSection) (vh vs vd vlb : String)
    (h1 : config_file xdg home ex = Except.ok f)
    (h2 : rc f sn = some sec)
    (hh : sec "host" = some vh) (hs : sec "src_dir" = some vs)
    (hd : sec "dst_dir" = some vd) (hlb : sec "logbase" = some vlb)
    (ht : (sec "timeout_secs").getD "" = "")
    (hm : (sec "mailto").getD "" = "") :
    context xdg home ex rc oname sn =
      Except.ok
        { ourname := oname, host := vh, src_dir := normSlash vs,
          dst_dir := normSlash vd, timeout_secs := none, logbase := vlb,
          mail := none } := by
  simp [context, h1, context_core, getSection, h2, getItem, hh, hs, hd,
    hlb, parseTimeout, ht, parseMail, hm, Except.bind]

/-! ## Concrete configurations used by witnesses -/

/-- A section with `src_dir` but no `host` key. -/
def secNoHost : CfgSection := fun k =>
  if k = "src_dir" then some "/a" else none

/-- A config whose only section is `main_backup`, missing `host`. -/
def cfgNoHost : Config := fun s =>
  if s = "main_backup" then some secNoHost else none

/-- A section with `host` only, so `src_dir` is the first missing key. -/
def secNoSrc : CfgSection := fun k =>
  if k = "host" then some "h" else none

/-- A config whose only section is `main_backup`, missing `src_dir`. -/
def cfgNoSrc : Config := fun s =>
  if s = "main_backup" then some secNoSrc else none

/-- A section with `host` and `src_dir` only, missing `dst_dir`. -/
def secNoDst : CfgSection := fun k =>
  if k = "host" then some "h"
  else if k = "src_dir" then some "/a/"
  else none

/-- A config whose only section is `main_backup`, missing `dst_dir`. -/
def cfgNoDst : Config := fun s =>
  if s = "main_backup" then some secNoDst else none

/-- A section with the first three required keys, missing `logbase`. -/
def secNoLogbase : CfgSection := fun k =>
  if k = "host" then some "h"
  else if k = "src_dir" then some "/a/"
  else if k = "dst_dir" then some "/b/"
  else none

/-- A config whose only section is `main_backup`, missing `logbase`. -/
def cfgNoLogbase : Config := fun s =>
  if s = "main_backup" then some secNoLogbase else none

/-- A complete section with all required keys and no optional ones. -/
def secFull : CfgSection := fun k =>
  if k = "host" then some "h"
  else if k = "src_dir" then some "/a/"
  else if k = "dst_dir" then some "/b/"
  else if k = "logbase" then some "/logs"
  else none

/-- A config holding `secFull` under `main_backup`. -/
def cfgFull : Config := fun s =>
  if s = "main_backup" then some secFull else none

/-- `secFull` with directories lacking/having the trailing slash. -/
def secSlash : CfgSection := fun k =>
  if k = "src_dir" then some "/a"
  else if k = "dst_dir" then some "/b/"
  else secFull k

/-- A config holding `secSlash` under `main_backup`. -/
def cfgSlash : Config := fun s =>
  if s = "main_backup" then some secSlash else none

/-- `secFull` with a malformed `timeout_secs`. -/
def secBadTimeout : CfgSection := fun k =>
  if k = "timeout_secs" then some "soon" else secFull k

/-- A config holding `secBadTimeout` under `main_backup`. -/
def cfgBadTimeout : Config := fun s =>
  if s = "main_backup" then some secBadTimeout else none

/-- A sample fully-built run context. -/
def ctxSample : Ctx :=
  { ourname := "run_backup.py", host := "h", src_dir := "/a/",
    dst_dir := "/b/", timeout_secs := none, logbase := "/logs",
    mail := none }

/-- A sample mail configuration with no prior thread ids. -/
def mailFresh : MailConfig :=
  { mailto := "admin@example.org", mailfrom := "backup@example.org",
    smtp := "smtp", thread_ids := [], taskdesc := "backup of h:/a/ on /b/" }

/-- `mailFresh` after one message id has been recorded. -/
def mailOne : MailConfig := { mailFresh with thread_ids := ["id0"] }

end RunBackup

namespace RunBackup

/-- C3: with no configured timeout the supervisor performs the unbounded
`process.wait()` and the outcome is `success` exactly when the child's
exit code is 0, and `failure` for every nonzero exit code. -/
theorem C3_no_timeout_outcome (child : ChildBehavior) :
    (backupRun none child).waitMode = WaitMode.unbounded ∧
    (backupRun none child).status =
      (if child.exitCode = 0 then "success" else "failure") := by
  refine ⟨rfl, ?_⟩
  by_cases h : child.exitCode = 0 <;> simp [backupRun, h]

/-- C1 as stated is false on the code: with timeout 5 and a child that is
still running at the timeout but eventually exits 0, the final status is
`"success"`, not the time-expired label — line 197-199 overwrites the
`'time expired'` status whenever `returncode == 0`. -/
theorem C1_counterexample :
    (backupRun (some 5) { runsPastTimeout := true, exitCode := 0 }).status
      = "success" ∧
    (backupRun (some 5) { runsPastTimeout := true, exitCode := 0 }).status
      ≠ "time expired" := by
  constructor <;> decide

/-- C1, amended: with a configured timeout, a child still running at the
timeout receives the interrupt, and the outcome is `'time expired'`
whenever the eventual exit code is nonzero; an eventual exit code of 0
yields `"success"` instead (exit-code success overrides the expired
label). -/
theorem C1_amended (t : Int) (child : ChildBehavior)
    (h : child.runsPastTimeout = true) :
    (backupRun (some t) child).interruptSent = true ∧
    (backupRun (some t) child).status =
      (if child.exitCode = 0 then "success" else "time expired") := by
  constructor
  · simp [backupRun, wait_with_timeout, h]
  · by_cases hc : child.exitCode = 0 <;>
      simp [backupRun, wait_with_timeout, h, hc]

/-- Witness for `C1_amended` at timeout 5 and a child that outlives the
timeout and exits with code 23. -/
theorem C1_amended_witness :
    (backupRun (some 5) { runsPastTimeout := true, exitCode := 23 }).interruptSent = true ∧
    (backupRun (some 5) { runsPastTimeout := true, exitCode := 23 }).status =
      (if (23 : Int) = 0 then "success" else "time expired") :=
  C1_amended 5 { runsPastTimeout := true, exitCode := 23 } rfl

/-- C2 is a bug in the code: `intercept_signals` has a bare `yield` with
no `try/finally`, so when the body of the scoped block raises, the
restore loop never runs and the temporary handler (here 7) is left
installed for every propagated signal instead of the original handlers
(here all 0).  Only the normal-exit path restores them. -/
theorem C2_handler_leak :
    (intercept_signals (fun _ => 0) 7 (Except.error ())).2 Sig.sigint = 7 ∧
    (intercept_signals (fun _ => 0) 7 (Except.error ())).2 Sig.sighup = 7 ∧
    (intercept_signals (fun _ => 0) 7 (Except.error ())).2 Sig.sigquit = 7 ∧
    (intercept_signals (fun _ => 0) 7 (Except.error ())).2 Sig.sigterm = 7 ∧
    (intercept_signals (fun _ => 0) 7 (Except.ok ())).2 Sig.sigint = 0 ∧
    (intercept_signals (fun _ => 0) 7 (Except.ok ())).2 Sig.sigterm = 0 := by
  refine ⟨?_, ?_, ?_, ?_, ?_, ?_⟩ <;> rfl

/-- C4: for every behaviour of `os.kill` (success or any raised
exception), the installed handler relays exactly the received signal
number to the child's pid, returns normally (never propagates an
exception past the handler boundary), and flags a logged error exactly
when the relay failed. -/
theorem C4_handler_never_raises (kill : Nat → Nat → Except Unit Unit)
    (signum pid : Nat) :
    sig_handler kill signum pid =
      Except.ok { killCalls := [(pid, signum)],
                  errorLogged := exceptFails (kill pid signum) } := by
  unfold sig_handler exceptFails
  cases kill pid signum <;> rfl

/-- C5 as stated is false on the code: with the config file present and
the `main_backup` section present but the required `host` key missing,
`context` fails with the builtin `KeyError`, which is not the script's
`ConfigException`. -/
theorem C5_counterexample :
    context (some []) "/home/u" (fun _ => true) (fun _ => cfgNoHost)
        "run_backup.py" "main_backup" =
      Except.error (PyErr.keyError "host") ∧
    isConfigException (PyErr.keyError "host") = false := by
  constructor <;> rfl

/-- C5, amended: a missing config file raises a `ConfigException` naming
every candidate path examined, and a missing section raises a
`ConfigException`; a missing required key (`host`, `src_dir`, `dst_dir`
or `logbase`) makes context construction fail before any run starts,
with a `KeyError` naming the first missing key in the order the code
reads them, not a `ConfigException` — nothing is silently defaulted in
any of the cases. -/
theorem C5_amended :
    (∀ (xdg : Option (List String)) (home : String) (ex : String → Bool)
        (rc : String → Config) (oname sn : String),
      (∀ c ∈ candidatesOf xdg home, ex c = false) →
      context xdg home ex rc oname sn =
        Except.error (PyErr.configException
          ("No config file. Places examined: "
            ++ String.intercalate ", " (candidatesOf xdg home)))) ∧
    (∀ (xdg : Option (List String)) (home : String) (ex : String → Bool)
        (rc : String → Config) (oname sn f : String),
      config_file xdg home ex = Except.ok f → rc f sn = none →
      context xdg home ex rc oname sn =
        Except.error (PyErr.configException
          ("Need a '" ++ sn ++ "' section in " ++ f))) ∧
    (∀ (xdg : Option (List String)) (home : String) (ex : String → Bool)
        (rc : String → Config) (oname sn f : String) (sec : CfgSection),
      config_file xdg home ex = Except.ok f → rc f sn = some sec →
      ((sec "host" = none →
        context xdg home ex rc oname sn =
          Except.error (PyErr.keyError "host")) ∧
       (∀ vh, sec "host" = some vh → sec "src_dir" = none →
        context xdg home ex rc oname sn =
          Except.error (PyErr.keyError "src_dir")) ∧
       (∀ vh vs, sec "host" = some vh → sec "src_dir" = some vs →
        sec "dst_dir" = none →
        context xdg home ex rc oname sn =
          Except.error (PyErr.keyError "dst_dir")) ∧
       (∀ vh vs vd, sec "host" = some vh → sec "src_dir" = some vs →
        sec "dst_dir" = some vd → sec "logbase" = none →
        context xdg home ex rc oname sn =
          Except.error (PyErr.keyError "logbase")))) := by
  refine ⟨?_, ?_, ?_⟩
  · intro xdg home ex rc oname sn h
    simp [context, config_file_all_missing xdg home ex h]
  · intro xdg home ex rc oname sn f h1 h2
    simp [context, h1, context_core, getSection, h2, Except.bind]
  · intro xdg home ex rc oname sn f sec h1 h2
    refine ⟨?_, ?_, ?_, ?_⟩
    · intro hh
      simp [context, h1, context_core, getSection, h2, getItem, hh,
        Except.bind]
    · intro vh hh hs
      simp [context, h1, context_core, getSection, h2, getItem, hh, hs,
        Except.bind]
    · intro vh vs hh hs hd
      simp [context, h1, context_core, getSection, h2, getItem, hh, hs,
        hd, Except.bind]
    · intro vh vs vd hh hs hd hlb
      simp [context, h1, context_core, getSection, h2, getItem, hh, hs,
        hd, hlb, Except.bind]

/-- Witness for `C5_amended` on concrete configurations: no file
anywhere, a file without the requested section, and sections missing
each of the four required keys in turn. -/
theorem C5_amended_witness :
    (context (some ["/etc/xdg"]) "/home/u" (fun _ => false)
        (fun _ => cfgNoHost) "run_backup.py" "main_backup" =
      Except.error (PyErr.configException
        ("No config file. Places examined: "
          ++ String.intercalate ", "
            (candidatesOf (some ["/etc/xdg"]) "/home/u")))) ∧
    (context (some []) "/home/u" (fun _ => true) (fun _ => cfgNoHost)
        "run_backup.py" "other_section" =
      Except.error (PyErr.configException
        ("Need a '" ++ "other_section" ++ "' section in "
          ++ "/home/u/run_backup.rc"))) ∧
    (context (some []) "/home/u" (fun _ => true) (fun _ => cfgNoHost)
        "run_backup.py" "main_backup" =
      Except.error (PyErr.keyError "host")) ∧
    (context (some []) "/home/u" (fun _ => true) (fun _ => cfgNoSrc)
        "run_backup.py" "main_backup" =
      Except.error (PyErr.keyError "src_dir")) ∧
    (context (some []) "/home/u" (fun _ => true) (fun _ => cfgNoDst)
        "run_backup.py" "main_backup" =
      Except.error (PyErr.keyError "dst_dir")) ∧
    (context (some []) "/home/u" (fun _ => true) (fun _ => cfgNoLogbase)
        "run_backup.py" "main_backup" =
      Except.error (PyErr.keyError "logbase")) :=
  ⟨C5_amended.1 (some ["/etc/xdg"]) "/home/u" (fun _ => false)
      (fun _ => cfgNoHost) "run_backup.py" "main_backup"
      (fun _ _ => rfl),
   C5_amended.2.1 (some []) "/home/u" (fun _ => true) (fun _ => cfgNoHost)
      "run_backup.py" "other_section" "/home/u/run_backup.rc" rfl rfl,
   (C5_amended.2.2 (some []) "/home/u" (fun _ => true) (fun _ => cfgNoHost)
      "run_backup.py" "main_backup" "/home/u/run_backup.rc" secNoHost
      rfl rfl).1 rfl,
   (C5_amended.2.2 (some []) "/home/u" (fun _ => true) (fun _ => cfgNoSrc)
      "run_backup.py" "main_backup" "/home/u/run_backup.rc" secNoSrc
      rfl rfl).2.1 "h" rfl rfl,
   (C5_amended.2.2 (some []) "/home/u" (fun _ => true) (fun _ => cfgNoDst)
      "run_backup.py" "main_backup" "/home/u/run_backup.rc" secNoDst
      rfl rfl).2.2.1 "h" "/a/" rfl rfl rfl,
   (C5_amended.2.2 (some []) "/home/u" (fun _ => true)
      (fun _ => cfgNoLogbase) "run_backup.py" "main_backup"
      "/home/u/run_backup.rc" secNoLogbase
      rfl rfl).2.2.2 "h" "/a/" "/b/" rfl rfl rfl rfl⟩

/-- C6: for every run context with host `h`, source `/a/` and destination
`/b/`, the argument list handed to the subprocess is exactly
`['rsync', '-avz', '--delete', 'h:/a/', '/b/']`. -/
theorem C6_command (c : Ctx) (hh : c.host = "h") (hs : c.src_dir = "/a/")
    (hd : c.dst_dir = "/b/") :
    rsyncCommand c = ["rsync", "-avz", "--delete", "h:/a/", "/b/"] := by
  simp [rsyncCommand, hh, hs, hd]

/-- Witness for `C6_command` on a concrete context. -/
theorem C6_command_witness :
    rsyncCommand ctxSample = ["rsync", "-avz", "--delete", "h:/a/", "/b/"] :=
  C6_command ctxSample rfl rfl rfl

/-- C7: every exception escaping `backup` is caught by the top-level
`except BaseException`, logged, mapped to the generic failure status
`"problem occured"`, and the `finally` block still attempts the mail
notification exactly when mail is configured. -/
theorem C7_top_level_catch (err : PyErr) (m : Bool) :
    (mainRun (Except.error err) m).status = "problem occured" ∧
    (mainRun (Except.error err) m).exceptionLogged = true ∧
    (mainRun (Except.error err) m).mailAttempted = m :=
  ⟨rfl, rfl, rfl⟩

/-- C8: a directory value already ending in `/` is stored unchanged, one
without the trailing separator gets `/` appended, and the context built
from the configuration stores the normalized values (command
construction reads them from the context afterwards). -/
theorem C8_trailing_slash :
    (∀ p : String, endsWithSlash p = true → normSlash p = p) ∧
    (∀ p : String, endsWithSlash p = false → normSlash p = p ++ "/") ∧
    (∀ (xdg : Option (List String)) (home : String) (ex : String → Bool)
        (rc : String → Config) (oname sn f : String) (sec : CfgSection)
        (vh vs vd vlb : String),
      config_file xdg home ex = Except.ok f → rc f sn = some sec →
      sec "host" = some vh → sec "src_dir" = some vs →
      sec "dst_dir" = some vd → sec "logbase" = some vlb →
      (sec "timeout_secs").getD "" = "" → (sec "mailto").getD "" = "" →
      context xdg home ex rc oname sn =
        Except.ok
          { ourname := oname, host := vh, src_dir := normSlash vs,
            dst_dir := normSlash vd, timeout_secs := none,
            logbase := vlb, mail := none }) := by
  refine ⟨?_, ?_, ?_⟩
  · intro p h
    simp [normSlash, h]
  · intro p h
    simp [normSlash, h]
  · intro xdg home ex rc oname sn f sec vh vs vd vlb h1 h2 hh hs hd hlb ht hm
    exact context_ok_eval xdg home ex rc oname sn f sec vh vs vd vlb
      h1 h2 hh hs hd hlb ht hm

/-- Witness for `C8_trailing_slash`: `/a/` is kept, `/b` gains a slash,
and a context built from raw values `/a` and `/b/` stores the normalized
directories. -/
theorem C8_trailing_slash_witness :
    normSlash "/a/" = "/a/" ∧
    normSlash "/b" = "/b" ++ "/" ∧
    context (some []) "/home/u" (fun _ => true) (fun _ => cfgSlash)
        "run_backup.py" "main_backup" =
      Except.ok
        { ourname := "run_backup.py", host := "h",
          src_dir := normSlash "/a", dst_dir := normSlash "/b/",
          timeout_secs := none, logbase := "/logs", mail := none } :=
  ⟨C8_trailing_slash.1 "/a/" rfl,
   C8_trailing_slash.2.1 "/b" rfl,
   C8_trailing_slash.2.2 (some []) "/home/u" (fun _ => true)
     (fun _ => cfgSlash) "run_backup.py" "main_backup"
     "/home/u/run_backup.rc" secSlash "h" "/a" "/b/" "/logs"
     rfl rfl rfl rfl rfl rfl rfl rfl⟩

/-- C9: each mail composition appends exactly the fresh message id to
`thread_ids`; `In-Reply-To` is set iff `thread_ids` was non-empty
beforehand, in which case it is the most recently appended id — so the
first mail has no `In-Reply-To` and every later mail threads onto the
previous one. -/
theorem C9_mail_threading (mail : MailConfig) (status msgid : String) :
    (makemail mail status msgid).2.thread_ids = mail.thread_ids ++ [msgid] ∧
    ((makemail mail status msgid).1.inReplyTo = none ↔
      mail.thread_ids = []) ∧
    (∀ ids lastid, mail.thread_ids = ids ++ [lastid] →
      (makemail mail status msgid).1.inReplyTo = some lastid) ∧
    (∀ status2 msgid2,
      (makemail (makemail mail status msgid).2 status2 msgid2).1.inReplyTo
        = some msgid) := by
  refine ⟨rfl, ?_, ?_, ?_⟩
  · simp only [makemail]
    exact List.getLast?_eq_none_iff
  · intro ids lastid h
    simp [makemail, h, List.getLast?_concat]
  · intro status2 msgid2
    simp [makemail, List.getLast?_concat]

/-- Witness for `C9_mail_threading`: a first mail (empty thread list,
no `In-Reply-To`), a second composition seeing the recorded id, and the
direct two-step threading. -/
theorem C9_mail_threading_witness :
    (makemail mailFresh "starting" "id1").2.thread_ids =
      mailFresh.thread_ids ++ ["id1"] ∧
    ((makemail mailFresh "starting" "id1").1.inReplyTo = none ↔
      mailFresh.thread_ids = []) ∧
    (makemail mailOne "success" "id1").1.inReplyTo = some "id0" ∧
    (makemail (makemail mailFresh "starting" "id1").2 "success"
        "id2").1.inReplyTo = some "id1" :=
  ⟨(C9_mail_threading mailFresh "starting" "id1").1,
   (C9_mail_threading mailFresh "starting" "id1").2.1,
   (C9_mail_threading mailOne "success" "id1").2.2.1 [] "id0" rfl,
   (C9_mail_threading mailFresh "starting" "id1").2.2.2 "success" "id2"⟩

/-- C10: an absent or empty `timeout_secs` key yields a context with no
timeout (and the no-timeout supervisor path performs the unbounded
wait); a non-empty `timeout_secs` that is not a valid integer makes
context construction raise `ValueError` instead of defaulting. -/
theorem C10_timeout_policy :
    (∀ (xdg : Option (List String)) (home : String) (ex : String → Bool)
        (rc : String → Config) (oname sn f : String) (sec : CfgSection)
        (vh vs vd vlb : String),
      config_file xdg home ex = Except.ok f → rc f sn = some sec →
      sec "host" = some vh → sec "src_dir" = some vs →
      sec "dst_dir" = some vd → sec "logbase" = some vlb →
      (sec "mailto").getD "" = "" →
      (sec "timeout_secs" = none ∨ sec "timeout_secs" = some "") →
      context xdg home ex rc oname sn =
        Except.ok
          { ourname := oname, host := vh, src_dir := normSlash vs,
            dst_dir := normSlash vd, timeout_secs := none,
            logbase := vlb, mail := none }) ∧
    (∀ (xdg : Option (List String)) (home : String) (ex : String → Bool)
        (rc : String → Config) (oname sn f : String) (sec : CfgSection)
        (vh vs vd vlb raw : String),
      config_file xdg home ex = Except.ok f → rc f sn = some sec →
      sec "host" = some vh → sec "src_dir" = some vs →
      sec "dst_dir" = some vd → sec "logbase" = some vlb →
      sec "timeout_secs" = some raw → raw ≠ "" → pyInt raw = none →
      context xdg home ex rc oname sn =
        Except.error (PyErr.valueError
          ("invalid literal for int with base 10: " ++ raw))) ∧
    (∀ child, (backupRun none child).waitMode = WaitMode.unbounded) := by
  refine ⟨?_, ?_, fun child => rfl⟩
  · intro xdg home ex rc oname sn f sec vh vs vd vlb h1 h2 hh hs hd hlb
      hm ht
    have ht2 : (sec "timeout_secs").getD "" = "" := by
      rcases ht with h | h <;> simp [h]
    exact context_ok_eval xdg home ex rc oname sn f sec vh vs vd vlb
      h1 h2 hh hs hd hlb ht2 hm
  · intro xdg home ex rc oname sn f sec vh vs vd vlb raw h1 h2 hh hs hd
      hlb hraw hne hpi
    simp [context, h1, context_core, getSection, h2, getItem, hh, hs, hd,
      hlb, parseTimeout, hraw, hne, hpi, Except.bind]

/-- Witness for `C10_timeout_policy`: a config with no `timeout_secs`
key builds a context with `timeout_secs = none`; the same config with
`timeout_secs = soon` fails with `ValueError`; and the no-timeout wait
is unbounded. -/
theorem C10_timeout_policy_witness :
    (context (some []) "/home/u" (fun _ => true) (fun _ => cfgFull)
        "run_backup.py" "main_backup" =
      Except.ok
        { ourname := "run_backup.py", host := "h",
          src_dir := normSlash "/a/", dst_dir := normSlash "/b/",
          timeout_secs := none, logbase := "/logs", mail := none }) ∧
    (context (some []) "/home/u" (fun _ => true) (fun _ => cfgBadTimeout)
        "run_backup.py" "main_backup" =
      Except.error (PyErr.valueError
        ("invalid literal for int with base 10: " ++ "soon"))) ∧
    (backupRun none { runsPastTimeout := false, exitCode := 0 }).waitMode
      = WaitMode.unbounded :=
  ⟨C10_timeout_policy.1 (some []) "/home/u" (fun _ => true)
      (fun _ => cfgFull) "run_backup.py" "main_backup"
      "/home/u/run_backup.rc" secFull "h" "/a/" "/b/" "/logs"
      rfl rfl rfl rfl rfl rfl rfl (Or.inl rfl),
   C10_timeout_policy.2.1 (some []) "/home/u" (fun _ => true)
      (fun _ => cfgBadTimeout) "run_backup.py" "main_backup"
      "/home/u/run_backup.rc" secBadTimeout "h" "/a/" "/b/" "/logs"
      "soon" rfl rfl rfl rfl rfl rfl rfl (by decide) rfl,
   C10_timeout_policy.2.2 { runsPastTimeout := false, exitCode := 0 }⟩

end RunBackup
